import Mathlib

/-!
Shallow embedding of `src/wikijs_mcp.py`: a Wiki.js MCP adapter consisting of a
`WikiJsClient` (GraphQL operations `search_pages`, `get_page_by_id`,
`get_page_by_path`, `create_page`, `update_page`) and tool facades
(`search_wiki`, `get_page`, `update_page`, `create_page`).

Python values flowing through the adapter (parsed JSON bodies, `None`, strings,
dicts) are modelled by the `Json` type; Python operations that can raise
(`d[k]`, `d.get(k, default)`, `k in d`, iteration, `int(s)`) are modelled as
functions into `Except PyErr _` or `Option`.  HTTP transport is modelled as a
function from the outbound GraphQL request to the response it elicits, and every
operation returns, alongside its result, the list of outbound requests it made.
-/

namespace WikiJsMcp

/-- Parsed-JSON / Python values handled by the adapter.  `null` doubles as
Python `None`; objects are association lists with (by JSON-parsing convention)
unique keys. -/
inductive Json where
  | null
  | bool (b : Bool)
  | int (n : Int)
  | str (s : String)
  | arr (elems : List Json)
  | obj (fields : List (String × Json))

/-- Python exceptions raised by the modelled operations. -/
inductive PyErr where
  | keyError (key : String)
  | typeError (msg : String)
  | attributeError (msg : String)
  deriving DecidableEq

/-- First-match lookup in an object's field list (keys are unique, so this is
Python dict lookup). -/
def jlookup : List (String × Json) → String → Option Json
  | [], _ => none
  | (k, v) :: rest, key => if k = key then some v else jlookup rest key

/-- Python type name of a value, used in exception messages. -/
def pyTypeName : Json → String
  | .null => "NoneType"
  | .bool _ => "bool"
  | .int _ => "int"
  | .str _ => "str"
  | .arr _ => "list"
  | .obj _ => "dict"

/-- Python truthiness of a parsed-JSON value. -/
def truthy : Json → Bool
  | .null => false
  | .bool b => b
  | .int n => n != 0
  | .str s => s != ""
  | .arr xs => !xs.isEmpty
  | .obj kvs => !kvs.isEmpty

mutual

/-- Python `repr` of a parsed-JSON value (string escaping inside `repr` of a
string is not modelled; no claim depends on it). -/
def pyRepr : Json → String
  | .null => "None"
  | .bool true => "True"
  | .bool false => "False"
  | .int n => toString n
  | .str s => "\x27" ++ s ++ "\x27"
  | .arr xs => "[" ++ String.intercalate ", " (pyReprList xs) ++ "]"
  | .obj kvs => "\x7b" ++ String.intercalate ", " (pyReprObj kvs) ++ "\x7d"

/-- `repr` of each element of a list. -/
def pyReprList : List Json → List String
  | [] => []
  | x :: xs => pyRepr x :: pyReprList xs

/-- `repr` of each key/value pair of a dict. -/
def pyReprObj : List (String × Json) → List String
  | [] => []
  | (k, v) :: rest => ("\x27" ++ k ++ "\x27: " ++ pyRepr v) :: pyReprObj rest

end

/-- Python `str()` of a parsed-JSON value, as used by f-string interpolation:
`str` of a string is the string itself, every other value renders as its
`repr`. -/
def pyStr : Json → String
  | .str s => s
  | v => pyRepr v

/-- Python `str()` of an exception, as used by `f"... {str(e)}"` in the create
path: `str` of a `KeyError` is the `repr` of the missing key, `str` of a
`TypeError`/`AttributeError` is its message. -/
def pyErrStr : PyErr → String
  | .keyError k => "\x27" ++ k ++ "\x27"
  | .typeError m => m
  | .attributeError m => m

/-- Python `s.startswith(pre)`. -/
def startswith (s pre : String) : Bool :=
  List.isPrefixOf pre.toList s.toList

/-- `isinstance(v, str) and v.startswith("Error")`, the guard the source uses
(in the update path and both facades) to recognise error-string returns.  Note
`"GraphQL Error: ..."` does not start with `"Error"`. -/
def isErrorStr (v : Json) : Bool :=
  match v with
  | .str s => startswith s "Error"
  | _ => false

/-- Python `v == n` for an integer literal `n` (the only equality the source
performs on response data, `error code == 6003`): ints compare numerically,
bools coerce to 0/1, every other parsed-JSON value is unequal to an int. -/
def pyEqInt (v : Json) (n : Int) : Bool :=
  match v with
  | .int m => m == n
  | .bool b => (if b then (1 : Int) else 0) == n
  | _ => false

/-- Python `key in container`: key membership for a dict, `==`-membership for a
list, substring test for a string, `TypeError` otherwise.  (A string element of
a list equals the string key exactly when the characters agree.) -/
def pyIn (key : String) : Json → Except PyErr Bool
  | .obj kvs => .ok (kvs.any (fun kv => kv.1 == key))
  | .arr xs =>
      .ok (xs.any (fun v => match v with | .str s => s == key | _ => false))
  | .str s => .ok (if key = "" then true else (s.splitOn key).length ≥ 2)
  | v => .error (.typeError ("argument of type \x27" ++ pyTypeName v ++ "\x27 is not iterable"))

/-- Python subscript `container[key]` with a string key: dict lookup raising
`KeyError` when absent, `TypeError` on every non-dict container. -/
def pySub (c : Json) (key : String) : Except PyErr Json :=
  match c with
  | .obj kvs =>
      match jlookup kvs key with
      | some v => .ok v
      | none => .error (.keyError key)
  | .arr _ => .error (.typeError "list indices must be integers or slices, not str")
  | .str _ => .error (.typeError "string indices must be integers")
  | v => .error (.typeError ("\x27" ++ pyTypeName v ++ "\x27 object is not subscriptable"))

/-- Python `container.get(key, default)`: defined on dicts only, raising
`AttributeError` on every other value (including strings, the case the update
path can hit). -/
def pyGet (c : Json) (key : String) (default : Json) : Except PyErr Json :=
  match c with
  | .obj kvs => .ok ((jlookup kvs key).getD default)
  | v => .error (.attributeError ("\x27" ++ pyTypeName v ++ "\x27 object has no attribute \x27get\x27"))

/-- Python `for x in container`: a list yields its elements, a string yields
its characters as one-character strings, a dict yields its keys, and every
other value raises `TypeError`. -/
def pyIter : Json → Except PyErr (List Json)
  | .arr xs => .ok xs
  | .str s => .ok (s.toList.map (fun ch => .str (String.singleton ch)))
  | .obj kvs => .ok (kvs.map (fun kv => .str kv.1))
  | v => .error (.typeError ("\x27" ++ pyTypeName v ++ "\x27 object is not iterable"))

/-- Digit-run parser for `int(s)`: ASCII digits with single underscores allowed
between digits (Python literal-style separators), returning the value. -/
def pyDigits : Nat → List Char → Option Nat
  | acc, [] => some acc
  | acc, c :: rest =>
      if c.isDigit then pyDigits (10 * acc + (c.toNat - 48)) rest
      else if c = '_' then
        match rest with
        | d :: rest2 =>
            if d.isDigit then pyDigits (10 * acc + (d.toNat - 48)) rest2 else none
        | [] => none
      else none

/-- Python whitespace stripped by `int(s)` (ASCII subset). -/
def isPySpace (c : Char) : Bool :=
  c == ' ' || c == '\t' || c == '\n' || c == '\r'

/-- Python `int(s)` on a string: strip surrounding whitespace, optional sign,
then a nonempty digit run; `none` models the `ValueError` raised on anything
else. -/
def pyInt? (s : String) : Option Int :=
  let cs := ((s.toList.dropWhile isPySpace).reverse.dropWhile isPySpace).reverse
  match cs with
  | [] => none
  | '+' :: c :: rest =>
      if c.isDigit then (pyDigits (c.toNat - 48) rest).map Int.ofNat else none
  | '-' :: c :: rest =>
      if c.isDigit then (pyDigits (c.toNat - 48) rest).map (fun n => -(n : Int)) else none
  | c :: rest =>
      if c.isDigit then (pyDigits (c.toNat - 48) rest).map Int.ofNat else none

/-!  ## Transport model

Each client method sends exactly one HTTP POST whose JSON body carries a fixed
GraphQL document literal plus a variables object.  The five fixed documents in
the source are named by `GqlDoc`; a request is a document together with its
variables; a transport maps each outbound request to the `httpx` response it
elicits (`status_code`, `text`, and the parsed `response.json()` body). -/

/-- The five fixed GraphQL document literals of the source. -/
inductive GqlDoc where
  | searchDoc
  | singleDoc
  | singleByPathDoc
  | createDoc
  | updateDoc
  deriving DecidableEq

/-- One outbound GraphQL request: a fixed document and its variables object. -/
structure GqlRequest where
  doc : GqlDoc
  vars : Json

/-- An HTTP response as the adapter consumes it: `status_code`, `text`, and
the parsed JSON body. -/
structure HttpResponse where
  status : Nat
  text : String
  body : Json

/-- A transport assigns to every outbound request the response it elicits. -/
def Transport : Type := GqlRequest → HttpResponse

namespace WikiJsClient

/-- Request built by `search_pages`. -/
def searchRequest (query : String) : GqlRequest :=
  ⟨.searchDoc, .obj [("query", .str query)]⟩

/-- Response classification of `search_pages` (source lines 64-71): non-200
status becomes an `"Error: ..."` string, a present `errors` key becomes a
`"GraphQL Error: ..."` string, otherwise the raw subscript chain
`data["data"]["pages"]["search"]["results"]` is descended (raising `KeyError`
when a container is absent). -/
def classifySearch (resp : HttpResponse) : Except PyErr Json :=
  if resp.status ≠ 200 then
    .ok (.str ("Error: " ++ toString resp.status ++ " - " ++ resp.text))
  else do
    let data := resp.body
    if (← pyIn "errors" data) then
      let errs ← pySub data "errors"
      pure (.str ("GraphQL Error: " ++ pyStr errs))
    else do
      let d1 ← pySub data "data"
      let d2 ← pySub d1 "pages"
      let d3 ← pySub d2 "search"
      pySub d3 "results"

/-- `WikiJsClient.search_pages`: one outbound request, then classification. -/
def search_pages (tr : Transport) (query : String) :
    Except PyErr Json × List GqlRequest :=
  let req := searchRequest query
  (classifySearch (tr req), [req])

/-- Request built by `get_page_by_id` (`int(page_id)` is the identity on the
integer ids the facades pass in). -/
def getByIdRequest (page_id : Int) : GqlRequest :=
  ⟨.singleDoc, .obj [("id", .int page_id)]⟩

/-- Request built by `get_page_by_path` (locale fixed to `"en"`). -/
def getByPathRequest (path : String) : GqlRequest :=
  ⟨.singleByPathDoc, .obj [("path", .str path), ("locale", .str "en")]⟩

/-- `error.get("extensions", {}).get("exception", {}).get("code")` for one
entry of the GraphQL error list. -/
def errCode (e : Json) : Except PyErr Json := do
  let ext ← pyGet e "extensions" (.obj [])
  let exc ← pyGet ext "exception" (.obj [])
  pyGet exc "code" .null

/-- The `for error in data["errors"]` loop of the get paths: returns `true`
(modelling the early `return None`) at the first entry whose extracted code
`== 6003`, `false` when the loop completes. -/
def scanNotFound : List Json → Except PyErr Bool
  | [] => .ok false
  | e :: rest =>
    match errCode e with
    | .error err => .error err
    | .ok c => if pyEqInt c 6003 then .ok true else scanNotFound rest

/-- Shared response classification of `get_page_by_id` / `get_page_by_path`
(source lines 98-119 and 146-167, identical up to the result field name
`field`): non-200 becomes an `"Error: ..."` string; a present `errors` key is
scanned for the 6003 not-found sentinel (yielding `None`) and otherwise
becomes a `"GraphQL Error: ..."` string; otherwise the page is extracted by
the safe chain `data.get("data", {}).get("pages", {}).get(field)`, with `None`
(absent or JSON null) returned as `None`. -/
def classifySingle (field : String) (resp : HttpResponse) : Except PyErr Json :=
  if resp.status ≠ 200 then
    .ok (.str ("Error: " ++ toString resp.status ++ " - " ++ resp.text))
  else do
    let data := resp.body
    if (← pyIn "errors" data) then
      let errsVal ← pySub data "errors"
      let entries ← pyIter errsVal
      if (← scanNotFound entries) then
        pure .null
      else
        pure (.str ("GraphQL Error: " ++ pyStr errsVal))
    else do
      let a ← pyGet data "data" (.obj [])
      let b ← pyGet a "pages" (.obj [])
      let page ← pyGet b field .null
      match page with
      | .null => pure .null
      | p => pure p

/-- `WikiJsClient.get_page_by_id`. -/
def get_page_by_id (tr : Transport) (page_id : Int) :
    Except PyErr Json × List GqlRequest :=
  let req := getByIdRequest page_id
  (classifySingle "single" (tr req), [req])

/-- `WikiJsClient.get_page_by_path`. -/
def get_page_by_path (tr : Transport) (path : String) :
    Except PyErr Json × List GqlRequest :=
  let req := getByPathRequest path
  (classifySingle "singleByPath" (tr req), [req])

/-- The `variables` dict built by `create_page` (source lines 171-185), in
source order. -/
def createVars (title content path description : String) : Json :=
  .obj [("title", .str title), ("content", .str content),
        ("description", .str description), ("editor", .str "markdown"),
        ("locale", .str "en"), ("isPrivate", .bool false),
        ("isPublished", .bool true), ("path", .str path), ("tags", .arr []),
        ("scriptCss", .str ""), ("scriptJs", .str ""),
        ("publishStartDate", .null), ("publishEndDate", .null)]

/-- Request built by `create_page`. -/
def createRequest (title content path description : String) : GqlRequest :=
  ⟨.createDoc, createVars title content path description⟩

/-- Response classification of `create_page` (source lines 247-280), before
the surrounding `try`/`except`: non-200 becomes an `"HTTP Error: ..."` string;
a present `errors` key becomes a `"GraphQL Error: ..."` string; an absent
`data`/`pages`/`create` container (checked left to right, short-circuiting)
becomes an `"Unexpected response structure: ..."` string; otherwise
`responseResult` is subscripted and a truthy `succeeded` yields the success
message embedding `page["id"]`, a falsy one the failure message embedding
`responseResult["message"]`. -/
def classifyCreate (resp : HttpResponse) : Except PyErr Json :=
  if resp.status ≠ 200 then
    .ok (.str ("HTTP Error: " ++ toString resp.status ++ " - " ++ resp.text))
  else do
    let data := resp.body
    if (← pyIn "errors" data) then
      let errs ← pySub data "errors"
      pure (.str ("GraphQL Error: " ++ pyStr errs))
    else do
      let hasData ← pyIn "data" data
      if !hasData then
        pure (.str ("Unexpected response structure: " ++ pyStr data))
      else do
        let dd ← pySub data "data"
        let hasPages ← pyIn "pages" dd
        if !hasPages then
          pure (.str ("Unexpected response structure: " ++ pyStr data))
        else do
          let dp ← pySub dd "pages"
          let hasCreate ← pyIn "create" dp
          if !hasCreate then
            pure (.str ("Unexpected response structure: " ++ pyStr data))
          else do
            let c1 ← pySub data "data"
            let c2 ← pySub c1 "pages"
            let c3 ← pySub c2 "create"
            let result ← pySub c3 "responseResult"
            let succ ← pySub result "succeeded"
            if truthy succ then do
              let d1 ← pySub data "data"
              let d2 ← pySub d1 "pages"
              let d3 ← pySub d2 "create"
              let page ← pySub d3 "page"
              let pid ← pySub page "id"
              pure (.str ("Page created successfully with ID: " ++ pyStr pid))
            else do
              let msg ← pySub result "message"
              pure (.str ("Failed to create page: " ++ pyStr msg))

/-- `WikiJsClient.create_page`: one outbound request; the whole call is inside
`try`/`except Exception`, so every raised exception is converted to an
`"Exception during page creation: ..."` string and the method never raises. -/
def create_page (tr : Transport) (title content path : String)
    (description : String := "") : Except PyErr Json × List GqlRequest :=
  let req := createRequest title content path description
  let r : Except PyErr Json :=
    match classifyCreate (tr req) with
    | .ok v => .ok v
    | .error e => .ok (.str ("Exception during page creation: " ++ pyErrStr e))
  (r, [req])

/-- The `variables` dict built by `update_page` (source lines 297-308) from the
preliminarily fetched page, in source evaluation order: `page.get` raises
`AttributeError` when `page` is not a dict (in particular when it is a
`"GraphQL Error: ..."` string that slipped past the `startswith("Error")`
guard). -/
def buildUpdateVars (page_id : Int) (content : String) (page : Json) :
    Except PyErr Json := do
  let t ← pyGet page "title" (.str "")
  let d ← pyGet page "description" (.str "")
  let p ← pyGet page "path" (.str "")
  pure (.obj [("id", .int page_id), ("title", t), ("content", .str content),
              ("description", d), ("editor", .str "markdown"),
              ("locale", .str "en"), ("isPrivate", .bool false),
              ("isPublished", .bool true), ("path", p), ("tags", .arr [])])

/-- Response classification of the update mutation (source lines 368-391):
non-200 becomes an `"Error: ..."` string; a present `errors` key becomes a
`"GraphQL Error: ..."` string; an absent `data`/`pages`/`update` container
becomes the fixed `"Unexpected response structure from API"` string; otherwise
`responseResult` is subscripted and `succeeded` decides between the
slug-embedding success message and the message-embedding failure message. -/
def classifyUpdate (resp : HttpResponse) : Except PyErr Json :=
  if resp.status ≠ 200 then
    .ok (.str ("Error: " ++ toString resp.status ++ " - " ++ resp.text))
  else do
    let data := resp.body
    if (← pyIn "errors" data) then
      let errs ← pySub data "errors"
      pure (.str ("GraphQL Error: " ++ pyStr errs))
    else do
      let hasData ← pyIn "data" data
      if !hasData then
        pure (.str "Unexpected response structure from API")
      else do
        let dd ← pySub data "data"
        let hasPages ← pyIn "pages" dd
        if !hasPages then
          pure (.str "Unexpected response structure from API")
        else do
          let dp ← pySub dd "pages"
          let hasUpdate ← pyIn "update" dp
          if !hasUpdate then
            pure (.str "Unexpected response structure from API")
          else do
            let c1 ← pySub data "data"
            let c2 ← pySub c1 "pages"
            let c3 ← pySub c2 "update"
            let result ← pySub c3 "responseResult"
            let succ ← pySub result "succeeded"
            if truthy succ then do
              let slug ← pySub result "slug"
              pure (.str ("Page updated successfully: " ++ pyStr slug))
            else do
              let msg ← pySub result "message"
              pure (.str ("Failed to update page: " ++ pyStr msg))

/-- `WikiJsClient.update_page` (source lines 287-391): a preliminary
`get_page_by_id`, the error-string / `None` guards, then the mutation request
built from the merge of the new content over the fetched page. -/
def update_page (tr : Transport) (page_id : Int) (content : String) :
    Except PyErr Json × List GqlRequest :=
  match WikiJsClient.get_page_by_id tr page_id with
  | (.error e, reqs1) => (.error e, reqs1)
  | (.ok page, reqs1) =>
    if isErrorStr page then (.ok page, reqs1)
    else
      match page with
      | .null =>
          (.ok (.str ("Error: No page found with ID: " ++ toString page_id)), reqs1)
      | _ =>
        match buildUpdateVars page_id content page with
        | .error e => (.error e, reqs1)
        | .ok vars =>
          let req2 : GqlRequest := ⟨.updateDoc, vars⟩
          (classifyUpdate (tr req2), reqs1 ++ [req2])

end WikiJsClient

/-!  ## Tool facades (the `@mcp.tool()` functions; `ctx.info` logging is
observability only and is not modelled). -/

/-- The per-result formatting of `search_wiki`'s loop body: the
`- ID: ..., Title: ..., Path: ...` line, plus a description line when
`page.get("description")` is truthy.  Subscripting a non-dict element (for
example a character of an error string that slipped past the
`startswith("Error")` guard) raises `TypeError`. -/
def formatResult (page : Json) : Except PyErr (List String) := do
  let pid ← pySub page "id"
  let title ← pySub page "title"
  let path ← pySub page "path"
  let line := "- ID: " ++ pyStr pid ++ ", Title: " ++ pyStr title ++
    ", Path: " ++ pyStr path
  let desc ← pyGet page "description" .null
  if truthy desc then
    pure [line, "  Description: " ++ pyStr desc]
  else
    pure [line]

/-- The `for page in results` loop of `search_wiki`, accumulating formatted
lines. -/
def formatResults : List Json → Except PyErr (List String)
  | [] => pure []
  | p :: rest => do
    let ls ← formatResult p
    let more ← formatResults rest
    pure (ls ++ more)

/-- Rendering step of `search_wiki` (source lines 412-427): error strings
starting with `"Error"` pass through, a falsy result yields
`"No results found"`, otherwise the results are iterated and formatted. -/
def renderSearch (results : Json) : Except PyErr Json :=
  if isErrorStr results then .ok results
  else if !truthy results then .ok (.str "No results found")
  else do
    let pages ← pyIter results
    let lines ← formatResults pages
    pure (.str (String.intercalate "\n" ("Search results:" :: lines)))

/-- `search_wiki` tool: delegate to `search_pages`, then render. -/
def search_wiki (tr : Transport) (query : String) :
    Except PyErr Json × List GqlRequest :=
  match WikiJsClient.search_pages tr query with
  | (.error e, reqs) => (.error e, reqs)
  | (.ok results, reqs) => (renderSearch results, reqs)

/-- Rendering step of `get_page` (source lines 457-477): error strings pass
through; a falsy or `None` page yields the no-page-found message; a non-dict
page yields the `"Unexpected response format: ..."` message; a dict is
rendered as the fixed field block with placeholder text for missing fields. -/
def renderPage (identifier : String) (by_path : Bool) (page : Json) : Json :=
  if isErrorStr page then page
  else if !truthy page then
    .str ("No page found with " ++ (if by_path then "path" else "ID") ++
      ": " ++ identifier)
  else
    match page with
    | .obj kvs =>
        .str ("\nTitle: " ++ pyStr ((jlookup kvs "title").getD (.str "No title"))
          ++ "\nPath: " ++ pyStr ((jlookup kvs "path").getD (.str "No path"))
          ++ "\nID: " ++ pyStr ((jlookup kvs "id").getD (.str "No ID"))
          ++ "\nLast Updated: "
          ++ pyStr ((jlookup kvs "updatedAt").getD (.str "No update time"))
          ++ "\nDescription: "
          ++ pyStr ((jlookup kvs "description").getD (.str "No description"))
          ++ "\n\nContent:\n"
          ++ pyStr ((jlookup kvs "content").getD (.str "No content")) ++ "\n")
    | p => .str ("Unexpected response format: " ++ pyStr p)

/-- `get_page` tool (source lines 431-477): with `by_path=False` the
identifier must parse as an integer (`int(identifier)`; on `ValueError` the
caller-argument error is returned before any request); then delegate and
render. -/
def get_page (tr : Transport) (identifier : String) (by_path : Bool) :
    Except PyErr Json × List GqlRequest :=
  if by_path then
    match WikiJsClient.get_page_by_path tr identifier with
    | (.error e, reqs) => (.error e, reqs)
    | (.ok page, reqs) => (.ok (renderPage identifier true page), reqs)
  else
    match pyInt? identifier with
    | none =>
        (.ok (.str "Error: When by_path is False, identifier must be a numeric ID"), [])
    | some n =>
      match WikiJsClient.get_page_by_id tr n with
      | (.error e, reqs) => (.error e, reqs)
      | (.ok page, reqs) => (.ok (renderPage identifier false page), reqs)

/-- `update_page` tool (source lines 481-507): `page_id` must parse as an
integer, then delegate to the client. -/
def update_page (tr : Transport) (page_id : String) (content : String) :
    Except PyErr Json × List GqlRequest :=
  match pyInt? page_id with
  | none => (.ok (.str "Error: page_id must be a numeric ID"), [])
  | some n => WikiJsClient.update_page tr n content

/-- `create_page` tool (source lines 511-530): delegate to the client with the
description defaulting to the empty string. -/
def create_page (tr : Transport) (title content path : String)
    (description : String := "") : Except PyErr Json × List GqlRequest :=
  WikiJsClient.create_page tr title content path description

/-!  ## Witness fixtures: concrete transports and bodies used to evaluate the
theorems. -/

/-- A transport answering every request with the same fixed response. -/
def constTransport (r : HttpResponse) : Transport := fun _ => r

/-- A 200 response whose body carries a GraphQL error list without the 6003
not-found sentinel. -/
def gqlErrorResp : HttpResponse :=
  ⟨200, "", .obj [("errors", .arr [.obj [("message", .str "boom")]])]⟩

/-- A well-formed 200 body for the preliminary fetch of page 7, used to drive
`update_page` past its preliminary read. -/
def goodPageBody : Json :=
  .obj [("data", .obj [("pages", .obj [("single",
    .obj [("id", .int 7), ("title", .str "T"), ("description", .str "D"),
          ("content", .str "old"), ("path", .str "/p"),
          ("updatedAt", .str "2024")])])])]

/-- The mutation request `update_page` builds for page 7 after fetching
`goodPageBody`. -/
def goodUpdateReq (content : String) : GqlRequest :=
  ⟨.updateDoc, .obj [("id", .int 7), ("title", .str "T"),
    ("content", .str content), ("description", .str "D"),
    ("editor", .str "markdown"), ("locale", .str "en"),
    ("isPrivate", .bool false), ("isPublished", .bool true),
    ("path", .str "/p"), ("tags", .arr [])]⟩

/-- A transport answering the single-page fetch with `goodPageBody` and every
other request with the given response. -/
def splitTransport (other : HttpResponse) : Transport := fun req =>
  if req.doc = GqlDoc.singleDoc then ⟨200, "", goodPageBody⟩ else other

/-!  ## Helper lemmas -/

/-- `bind` on a successful `Except` applies the continuation. -/
theorem exbind_ok {α β : Type} (a : α) (f : α → Except PyErr β) :
    (Except.ok a : Except PyErr α) >>= f = f a := rfl

/-- `bind` on a failed `Except` propagates the exception. -/
theorem exbind_err {α β : Type} (e : PyErr) (f : α → Except PyErr β) :
    (Except.error e : Except PyErr α) >>= f = .error e := rfl

/-- A key that `jlookup` finds is reported present by the `any` scan that
models Python `key in dict`. -/
theorem any_eq_true_of_jlookup {kvs : List (String × Json)} {k : String}
    {v : Json} (h : jlookup kvs k = some v) :
    kvs.any (fun kv => kv.1 == k) = true := by
  induction kvs with
  | nil => simp [jlookup] at h
  | cons kv rest ih =>
    rw [jlookup] at h
    by_cases hk : kv.1 = k
    · simp [hk]
    · rw [if_neg ?_] at h
      · simp [List.any_cons, hk, ih h]
      · intro hc
        exact hk (by cases kv; exact hc)

/-- A key that `jlookup` misses is reported absent by the `any` scan that
models Python `key in dict`. -/
theorem any_eq_false_of_jlookup {kvs : List (String × Json)} {k : String}
    (h : jlookup kvs k = none) :
    kvs.any (fun kv => kv.1 == k) = false := by
  induction kvs with
  | nil => simp
  | cons kv rest ih =>
    rw [jlookup] at h
    by_cases hk : kv.1 = k
    · rw [if_pos ?_] at h
      · cases h
      · cases kv; exact hk
    · rw [if_neg ?_] at h
      · simp [List.any_cons, hk, ih h]
      · intro hc
        exact hk (by cases kv; exact hc)

/-- When every entry's code extraction succeeds and some entry carries the
6003 sentinel, the error-list scan reports it (modelling the early
`return None`). -/
theorem scanNotFound_found {entries : List Json}
    (hok : ∀ e ∈ entries, ∃ c, WikiJsClient.errCode e = .ok c)
    (hex : ∃ e ∈ entries, WikiJsClient.errCode e = .ok (.int 6003)) :
    WikiJsClient.scanNotFound entries = .ok true := by
  induction entries with
  | nil => simp at hex
  | cons e0 rest ih =>
    obtain ⟨c0, hc0⟩ := hok e0 (List.mem_cons_self e0 rest)
    rw [WikiJsClient.scanNotFound, hc0]
    dsimp only
    by_cases heq : pyEqInt c0 6003 = true
    · rw [if_pos heq]
    · rw [if_neg heq]
      apply ih
      · intro e he
        exact hok e (List.mem_cons_of_mem e0 he)
      · obtain ⟨e, he, hce⟩ := hex
        rcases List.mem_cons.mp he with rfl | hmem
        · rw [hc0] at hce
          cases hce
          exact absurd rfl heq
        · exact ⟨e, hmem, hce⟩

/-- When every entry's code extraction succeeds and none carries the 6003
sentinel, the error-list scan completes without a match. -/
theorem scanNotFound_none {entries : List Json}
    (h : ∀ e ∈ entries, ∃ c, WikiJsClient.errCode e = .ok c ∧ pyEqInt c 6003 = false) :
    WikiJsClient.scanNotFound entries = .ok false := by
  induction entries with
  | nil => rfl
  | cons e0 rest ih =>
    obtain ⟨c0, hc0, hne⟩ := h e0 (List.mem_cons_self e0 rest)
    rw [WikiJsClient.scanNotFound, hc0]
    dsimp only
    rw [if_neg (by simp [hne])]
    exact ih (fun e he => h e (List.mem_cons_of_mem e0 he))

/-!  ## Claim theorems -/

/-- C1 (code_bug evaluation): when the preliminary read of `update_page`
returns the ApiError variant (a 200 response whose body carries a non-6003
GraphQL error list), the client does make exactly one outbound request and
never issues the mutation, but it does not surface the failure: the
`"GraphQL Error: ..."` string slips past the `startswith("Error")` guard and
`page.get("title", "")` raises `AttributeError`, losing the error message. -/
theorem update_page_apierror_preliminary_crashes :
    (WikiJsClient.update_page (constTransport gqlErrorResp) 1 "new content").1
      = .error (.attributeError "\x27str\x27 object has no attribute \x27get\x27")
    ∧ (WikiJsClient.update_page (constTransport gqlErrorResp) 1 "new content").2
      = [WikiJsClient.getByIdRequest 1] :=
  ⟨rfl, rfl⟩

/-- C4 (code_bug evaluation): `search_wiki` passes a TransportError message
(`"Error: 500 - boom"`) through unchanged, but on the ApiError variant the
`"GraphQL Error: ..."` string slips past the `startswith("Error")` guard, the
formatting loop iterates its characters, and `page["id"]` on a one-character
string raises `TypeError` instead of returning the message. -/
theorem search_wiki_error_passthrough_behavior :
    (search_wiki (constTransport ⟨500, "boom", .null⟩) "q").1
      = .ok (.str "Error: 500 - boom")
    ∧ (search_wiki (constTransport gqlErrorResp) "q").1
      = .error (.typeError "string indices must be integers")
    ∧ (search_wiki (constTransport gqlErrorResp) "q").2
      = [WikiJsClient.searchRequest "q"] :=
  ⟨rfl, rfl, rfl⟩

/-- C5 (counterexample): a success-status search response whose expected
nested containers are absent (body `{}`) makes `search_wiki` raise a
`KeyError` past its boundary — the raw subscript chain
`data["data"]["pages"]["search"]["results"]` has no malformed-response
handling, contradicting the claim that every operation returns an error
string rather than raising. -/
theorem search_wiki_missing_container_raises :
    (search_wiki (constTransport ⟨200, "", .obj []⟩) "q").1
      = .error (.keyError "data") :=
  rfl

/-- The caller-argument error message of `get_page` differs from every
rendering of its no-page-found message. -/
theorem callerErr_ne_noPage (mid s2 : String) :
    "Error: When by_path is False, identifier must be a numeric ID"
      ≠ "No page found with " ++ mid ++ ": " ++ s2 := by
  intro h
  have h2 := congrArg String.data h
  rw [String.data_append, String.data_append, String.data_append] at h2
  have hL : ("Error: When by_path is False, identifier must be a numeric ID" : String).data
      = 'E' :: ("rror: When by_path is False, identifier must be a numeric ID" : String).data := rfl
  have hR : ("No page found with " : String).data
      = 'N' :: ("o page found with " : String).data := rfl
  rw [hL, hR, List.cons_append, List.cons_append, List.cons_append] at h2
  injection h2 with hc _
  exact absurd hc (by decide)

/-- C6: with `by_path = False` and an identifier that does not parse as an
integer, `get_page` returns the caller-argument error message, issues zero
outbound requests, and that message differs from the no-page-found message
rendered for any identifier and either lookup mode. -/
theorem get_page_nonnumeric_identifier (tr : Transport) (s : String)
    (h : pyInt? s = none) :
    (get_page tr s false).1
      = .ok (.str "Error: When by_path is False, identifier must be a numeric ID")
    ∧ (get_page tr s false).2 = []
    ∧ ∀ mid s2, "Error: When by_path is False, identifier must be a numeric ID"
        ≠ "No page found with " ++ mid ++ ": " ++ s2 := by
  refine ⟨?_, ?_, fun mid s2 => callerErr_ne_noPage mid s2⟩ <;>
    simp [get_page, h]

/-- Witness for C6 at the spec's example identifier `"abc"`. -/
theorem get_page_nonnumeric_identifier_witness :
    (get_page (constTransport ⟨200, "", .obj []⟩) "abc" false).1
      = .ok (.str "Error: When by_path is False, identifier must be a numeric ID")
    ∧ (get_page (constTransport ⟨200, "", .obj []⟩) "abc" false).2 = [] := by
  have h := get_page_nonnumeric_identifier (constTransport ⟨200, "", .obj []⟩) "abc" rfl
  exact ⟨h.1, h.2.1⟩

/-- C7: a successful search response with an empty result list makes
`search_wiki` return the explicit `"No results found"` message — a nonempty
string that is not an error-prefixed string. -/
theorem search_wiki_empty_results_message (tr : Transport) (q txt : String)
    (h : tr (WikiJsClient.searchRequest q) = ⟨200, txt,
      .obj [("data", .obj [("pages", .obj [("search",
        .obj [("results", .arr [])])])])]⟩) :
    (search_wiki tr q).1 = .ok (.str "No results found")
    ∧ "No results found" ≠ ""
    ∧ startswith "No results found" "Error" = false := by
  refine ⟨?_, by decide, rfl⟩
  unfold search_wiki WikiJsClient.search_pages
  dsimp only
  rw [h]
  rfl

/-- Witness for C7. -/
theorem search_wiki_empty_results_message_witness :
    (search_wiki (constTransport ⟨200, "",
      .obj [("data", .obj [("pages", .obj [("search",
        .obj [("results", .arr [])])])])]⟩) "anything").1
      = .ok (.str "No results found") :=
  (search_wiki_empty_results_message (constTransport ⟨200, "",
    .obj [("data", .obj [("pages", .obj [("search",
      .obj [("results", .arr [])])])])]⟩) "anything" "" rfl).1

/-- C8: `create_page` invoked without a description sends exactly one request
whose variables carry `description` as the empty string and the full fixed
field set (markdown editor, `en` locale, visibility flags, empty tag list,
empty script fields, null schedule dates), for every title, content, path and
transport. -/
theorem create_page_sends_full_field_set (tr : Transport)
    (title content path : String) :
    (create_page tr title content path).2
      = [⟨.createDoc, .obj [("title", .str title), ("content", .str content),
          ("description", .str ""), ("editor", .str "markdown"),
          ("locale", .str "en"), ("isPrivate", .bool false),
          ("isPublished", .bool true), ("path", .str path), ("tags", .arr []),
          ("scriptCss", .str ""), ("scriptJs", .str ""),
          ("publishStartDate", .null), ("publishEndDate", .null)]⟩] :=
  rfl

/-- C10: when the fetch by id yields a falsy success payload (the empty dict,
which the client returns as-is), `get_page` reports it with the very same
no-page-found message it uses for the `None` (NotFound) payload. -/
theorem get_page_falsy_payload_notfound_message (tr₁ tr₂ : Transport)
    (s txt₁ txt₂ : String) (n : Int)
    (hn : pyInt? s = some n)
    (h1 : tr₁ (WikiJsClient.getByIdRequest n) = ⟨200, txt₁,
      .obj [("data", .obj [("pages", .obj [("single", .obj [])])])]⟩)
    (h2 : tr₂ (WikiJsClient.getByIdRequest n) = ⟨200, txt₂,
      .obj [("data", .obj [("pages", .obj [("single", .null)])])]⟩) :
    (get_page tr₁ s false).1 = .ok (.str ("No page found with ID: " ++ s))
    ∧ (get_page tr₂ s false).1 = .ok (.str ("No page found with ID: " ++ s)) := by
  constructor
  · unfold get_page WikiJsClient.get_page_by_id
    rw [hn]
    dsimp only
    rw [h1]
    rfl
  · unfold get_page WikiJsClient.get_page_by_id
    rw [hn]
    dsimp only
    rw [h2]
    rfl

/-- C2: when the preliminary fetch succeeds, the update mutation request is
sent with the `title`, `description` and `path` taken verbatim from the
fetched page and only `content` replaced — in particular the previously
stored description is preserved exactly (this source revision's
`update_page` takes no description argument at all). -/
theorem update_preserves_fetched_fields (tr : Transport) (page_id : Int)
    (content t d p oldc u txt : String)
    (h : tr (WikiJsClient.getByIdRequest page_id) = ⟨200, txt,
      .obj [("data", .obj [("pages", .obj [("single",
        .obj [("id", .int page_id), ("title", .str t), ("description", .str d),
              ("content", .str oldc), ("path", .str p),
              ("updatedAt", .str u)])])])]⟩) :
    (WikiJsClient.update_page tr page_id content).2
      = [WikiJsClient.getByIdRequest page_id,
         ⟨.updateDoc, .obj [("id", .int page_id), ("title", .str t),
            ("content", .str content), ("description", .str d),
            ("editor", .str "markdown"), ("locale", .str "en"),
            ("isPrivate", .bool false), ("isPublished", .bool true),
            ("path", .str p), ("tags", .arr [])]⟩] := by
  unfold WikiJsClient.update_page WikiJsClient.get_page_by_id
  dsimp only
  rw [h]
  rfl

/-- Witness for C2. -/
theorem update_preserves_fetched_fields_witness :
    (WikiJsClient.update_page (constTransport ⟨200, "",
      .obj [("data", .obj [("pages", .obj [("single",
        .obj [("id", .int 7), ("title", .str "T"), ("description", .str "D"),
              ("content", .str "old"), ("path", .str "/p"),
              ("updatedAt", .str "2024")])])])]⟩) 7 "new").2
      = [WikiJsClient.getByIdRequest 7,
         ⟨.updateDoc, .obj [("id", .int 7), ("title", .str "T"),
            ("content", .str "new"), ("description", .str "D"),
            ("editor", .str "markdown"), ("locale", .str "en"),
            ("isPrivate", .bool false), ("isPublished", .bool true),
            ("path", .str "/p"), ("tags", .arr [])]⟩] :=
  update_preserves_fetched_fields (constTransport ⟨200, "",
      .obj [("data", .obj [("pages", .obj [("single",
        .obj [("id", .int 7), ("title", .str "T"), ("description", .str "D"),
              ("content", .str "old"), ("path", .str "/p"),
              ("updatedAt", .str "2024")])])])]⟩) 7 "new" "T" "D" "/p" "old" "2024" "" rfl

/-- C3: on a 200 response whose body carries a GraphQL error list (each
entry's code extraction evaluating without raising), `get_page_by_id` returns
`None` (NotFound) as soon as some entry carries the 6003 sentinel code, and
returns the `"GraphQL Error: ..."` ApiError string collecting the list when
no entry does. -/
theorem get_by_id_sentinel_classification (tr : Transport) (n : Int)
    (txt : String) (kvs : List (String × Json)) (entries : List Json)
    (hresp : tr (WikiJsClient.getByIdRequest n) = ⟨200, txt, .obj kvs⟩)
    (herrs : jlookup kvs "errors" = some (.arr entries))
    (hok : ∀ e ∈ entries, ∃ c, WikiJsClient.errCode e = .ok c) :
    ((∃ e ∈ entries, WikiJsClient.errCode e = .ok (.int 6003)) →
      (WikiJsClient.get_page_by_id tr n).1 = .ok .null)
    ∧ ((∀ e ∈ entries, ∀ c, WikiJsClient.errCode e = .ok c → pyEqInt c 6003 = false) →
      (WikiJsClient.get_page_by_id tr n).1
        = .ok (.str ("GraphQL Error: " ++ pyStr (.arr entries)))) := by
  have hstep : (WikiJsClient.get_page_by_id tr n).1
      = WikiJsClient.classifySingle "single" ⟨200, txt, .obj kvs⟩ := by
    unfold WikiJsClient.get_page_by_id
    dsimp only
    rw [hresp]
  constructor
  · intro hex
    rw [hstep]
    unfold WikiJsClient.classifySingle
    rw [if_neg (by simp)]
    dsimp only [pyIn, pySub, pyIter]
    rw [exbind_ok, any_eq_true_of_jlookup herrs, if_pos rfl, herrs]
    dsimp only
    rw [exbind_ok, exbind_ok, scanNotFound_found hok hex, exbind_ok, if_pos rfl]
    rfl
  · intro hnone
    rw [hstep]
    unfold WikiJsClient.classifySingle
    rw [if_neg (by simp)]
    dsimp only [pyIn, pySub, pyIter]
    rw [exbind_ok, any_eq_true_of_jlookup herrs, if_pos rfl, herrs]
    dsimp only
    rw [exbind_ok, exbind_ok,
      scanNotFound_none (fun e he => by
        obtain ⟨c, hc⟩ := hok e he
        exact ⟨c, hc, hnone e he c hc⟩),
      exbind_ok, if_neg (by simp)]
    rfl

/-- Witness for C3: a 6003-coded error list yields NotFound and a non-coded
error list yields the ApiError string. -/
theorem get_by_id_sentinel_classification_witness :
    (WikiJsClient.get_page_by_id (constTransport ⟨200, "",
      .obj [("errors", .arr [.obj [("extensions",
        .obj [("exception", .obj [("code", .int 6003)])])]])]⟩) 5).1
      = .ok .null
    ∧ (WikiJsClient.get_page_by_id (constTransport gqlErrorResp) 5).1
      = .ok (.str ("GraphQL Error: "
          ++ pyStr (.arr [.obj [("message", .str "boom")]]))) := by
  constructor
  · exact (get_by_id_sentinel_classification (constTransport ⟨200, "",
      .obj [("errors", .arr [.obj [("extensions",
        .obj [("exception", .obj [("code", .int 6003)])])]])]⟩) 5 ""
      [("errors", .arr [.obj [("extensions",
        .obj [("exception", .obj [("code", .int 6003)])])]])]
      [.obj [("extensions", .obj [("exception", .obj [("code", .int 6003)])])]]
      rfl rfl
      (by
        intro e he
        rw [List.mem_singleton] at he
        subst he
        exact ⟨.int 6003, rfl⟩)).1
      ⟨_, List.mem_singleton.mpr rfl, rfl⟩
  · exact (get_by_id_sentinel_classification (constTransport gqlErrorResp) 5 ""
      [("errors", .arr [.obj [("message", .str "boom")]])]
      [.obj [("message", .str "boom")]]
      rfl rfl
      (by
        intro e he
        rw [List.mem_singleton] at he
        subst he
        exact ⟨.null, rfl⟩)).2
      (by
        intro e he c hc
        rw [List.mem_singleton] at he
        subst he
        cases hc
        rfl)

/-- C9: a create response whose `responseResult.succeeded` is true yields the
success message embedding the new page's id, and one whose `succeeded` is
false yields the failure message embedding the server-reported message (and
mentioning no id). -/
theorem create_page_outcome_messages :
    (∀ (tr : Transport) (t c p txt slug : String) (n : Int),
      tr (WikiJsClient.createRequest t c p "") = ⟨200, txt,
        .obj [("data", .obj [("pages", .obj [("create", .obj
          [("responseResult", .obj [("succeeded", .bool true),
            ("slug", .str slug), ("message", .str "")]),
           ("page", .obj [("id", .int n)])])])])]⟩ →
      (create_page tr t c p).1
        = .ok (.str ("Page created successfully with ID: " ++ toString n)))
    ∧ (∀ (tr : Transport) (t c p txt m : String),
      tr (WikiJsClient.createRequest t c p "") = ⟨200, txt,
        .obj [("data", .obj [("pages", .obj [("create", .obj
          [("responseResult", .obj [("succeeded", .bool false),
            ("slug", .null), ("message", .str m)])])])])]⟩ →
      (create_page tr t c p).1 = .ok (.str ("Failed to create page: " ++ m))) := by
  constructor
  · intro tr t c p txt slug n h
    unfold create_page WikiJsClient.create_page
    dsimp only
    rw [h]
    rfl
  · intro tr t c p txt m h
    unfold create_page WikiJsClient.create_page
    dsimp only
    rw [h]
    rfl

/-- Witness for C9 at the spec's end-to-end scenario: `succeeded=true,
page.id=42` yields a message containing `42`; `succeeded=false,
message="path taken"` yields a message containing `"path taken"`. -/
theorem create_page_outcome_messages_witness :
    (create_page (constTransport ⟨200, "",
      .obj [("data", .obj [("pages", .obj [("create", .obj
        [("responseResult", .obj [("succeeded", .bool true),
          ("slug", .str "/t"), ("message", .str "")]),
         ("page", .obj [("id", .int 42)])])])])]⟩) "T" "C" "/t").1
      = .ok (.str "Page created successfully with ID: 42")
    ∧ (create_page (constTransport ⟨200, "",
      .obj [("data", .obj [("pages", .obj [("create", .obj
        [("responseResult", .obj [("succeeded", .bool false),
          ("slug", .null), ("message", .str "path taken")])])])])]⟩) "T" "C" "/t").1
      = .ok (.str "Failed to create page: path taken") :=
  ⟨create_page_outcome_messages.1 (constTransport ⟨200, "",
      .obj [("data", .obj [("pages", .obj [("create", .obj
        [("responseResult", .obj [("succeeded", .bool true),
          ("slug", .str "/t"), ("message", .str "")]),
         ("page", .obj [("id", .int 42)])])])])]⟩) "T" "C" "/t" "" "/t" 42 rfl,
   create_page_outcome_messages.2 (constTransport ⟨200, "",
      .obj [("data", .obj [("pages", .obj [("create", .obj
        [("responseResult", .obj [("succeeded", .bool false),
          ("slug", .null), ("message", .str "path taken")])])])])]⟩) "T" "C" "/t" "" "path taken" rfl⟩

/-- C5 (amended): how each operation treats a success-status response whose
expected nested containers or result fields are absent.  (1) `search_wiki`
raises a `KeyError` past its boundary when the `data` container is absent;
(2) `create_page` returns the `"Unexpected response structure: ..."` error
string in that case; (3) `update_page` returns the fixed
`"Unexpected response structure from API"` error string when the mutation
response lacks the containers; (4) `get_page` reports absent containers with
its no-page-found message rather than a malformed-response classification;
(5) `update_page` raises a `KeyError` when the containers are present but
`responseResult` is absent; and (6) `create_page` never raises for any
transport, converting every exception to a returned string. -/
theorem malformed_response_handling_by_operation :
    (∀ (tr : Transport) (q txt : String) (kvs : List (String × Json)),
      tr (WikiJsClient.searchRequest q) = ⟨200, txt, .obj kvs⟩ →
      jlookup kvs "errors" = none → jlookup kvs "data" = none →
      (search_wiki tr q).1 = .error (.keyError "data"))
    ∧ (∀ (tr : Transport) (t c p txt : String) (kvs : List (String × Json)),
      tr (WikiJsClient.createRequest t c p "") = ⟨200, txt, .obj kvs⟩ →
      jlookup kvs "errors" = none → jlookup kvs "data" = none →
      (create_page tr t c p).1
        = .ok (.str ("Unexpected response structure: " ++ pyStr (.obj kvs))))
    ∧ (∀ (tr : Transport) (content txt₁ txt₂ : String) (kvs : List (String × Json)),
      tr (WikiJsClient.getByIdRequest 7) = ⟨200, txt₁, goodPageBody⟩ →
      tr (goodUpdateReq content) = ⟨200, txt₂, .obj kvs⟩ →
      jlookup kvs "errors" = none → jlookup kvs "data" = none →
      (WikiJsClient.update_page tr 7 content).1
        = .ok (.str "Unexpected response structure from API"))
    ∧ (∀ (tr : Transport) (s txt : String) (n : Int) (kvs : List (String × Json)),
      pyInt? s = some n →
      tr (WikiJsClient.getByIdRequest n) = ⟨200, txt, .obj kvs⟩ →
      jlookup kvs "errors" = none → jlookup kvs "data" = none →
      (get_page tr s false).1 = .ok (.str ("No page found with ID: " ++ s)))
    ∧ (∀ (tr : Transport) (content txt₁ txt₂ : String),
      tr (WikiJsClient.getByIdRequest 7) = ⟨200, txt₁, goodPageBody⟩ →
      tr (goodUpdateReq content) = ⟨200, txt₂,
        .obj [("data", .obj [("pages", .obj [("update", .obj [])])])]⟩ →
      (WikiJsClient.update_page tr 7 content).1 = .error (.keyError "responseResult"))
    ∧ (∀ (tr : Transport) (t c p d : String),
      ∃ v, (create_page tr t c p d).1 = .ok v) := by
  refine ⟨?_, ?_, ?_, ?_, ?_, ?_⟩
  · intro tr q txt kvs h herrs hdata
    have hclass : WikiJsClient.classifySearch ⟨200, txt, .obj kvs⟩
        = .error (.keyError "data") := by
      unfold WikiJsClient.classifySearch
      rw [if_neg (by simp)]
      dsimp only [pyIn, pySub]
      rw [exbind_ok, any_eq_false_of_jlookup herrs, if_neg (by simp), hdata]
      rfl
    unfold search_wiki WikiJsClient.search_pages
    dsimp only
    rw [h, hclass]
  · intro tr t c p txt kvs h herrs hdata
    have hclass : WikiJsClient.classifyCreate ⟨200, txt, .obj kvs⟩
        = .ok (.str ("Unexpected response structure: " ++ pyStr (.obj kvs))) := by
      unfold WikiJsClient.classifyCreate
      rw [if_neg (by simp)]
      dsimp only [pyIn]
      rw [exbind_ok, any_eq_false_of_jlookup herrs, if_neg (by simp),
        exbind_ok, any_eq_false_of_jlookup hdata]
      rfl
    unfold create_page WikiJsClient.create_page
    dsimp only
    rw [h, hclass]
  · intro tr content txt₁ txt₂ kvs h1 h2 herrs hdata
    have hclass : WikiJsClient.classifyUpdate ⟨200, txt₂, .obj kvs⟩
        = .ok (.str "Unexpected response structure from API") := by
      unfold WikiJsClient.classifyUpdate
      rw [if_neg (by simp)]
      dsimp only [pyIn]
      rw [exbind_ok, any_eq_false_of_jlookup herrs, if_neg (by simp),
        exbind_ok, any_eq_false_of_jlookup hdata]
      rfl
    have hpre : WikiJsClient.get_page_by_id tr 7
        = (.ok (.obj [("id", .int 7), ("title", .str "T"),
            ("description", .str "D"), ("content", .str "old"),
            ("path", .str "/p"), ("updatedAt", .str "2024")]),
           [WikiJsClient.getByIdRequest 7]) := by
      unfold WikiJsClient.get_page_by_id
      dsimp only
      rw [h1]
      rfl
    unfold WikiJsClient.update_page
    rw [hpre]
    show (WikiJsClient.classifyUpdate (tr (goodUpdateReq content)),
      [WikiJsClient.getByIdRequest 7] ++ [goodUpdateReq content]).1
      = .ok (.str "Unexpected response structure from API")
    rw [h2, hclass]
  · intro tr s txt n kvs hn h herrs hdata
    have hclass : WikiJsClient.classifySingle "single" ⟨200, txt, .obj kvs⟩
        = .ok .null := by
      unfold WikiJsClient.classifySingle
      rw [if_neg (by simp)]
      dsimp only [pyIn, pyGet]
      rw [exbind_ok, any_eq_false_of_jlookup herrs, if_neg (by simp),
        exbind_ok, hdata]
      rfl
    unfold get_page WikiJsClient.get_page_by_id
    rw [hn]
    dsimp only
    rw [h, hclass]
    rfl
  · intro tr content txt₁ txt₂ h1 h2
    have hpre : WikiJsClient.get_page_by_id tr 7
        = (.ok (.obj [("id", .int 7), ("title", .str "T"),
            ("description", .str "D"), ("content", .str "old"),
            ("path", .str "/p"), ("updatedAt", .str "2024")]),
           [WikiJsClient.getByIdRequest 7]) := by
      unfold WikiJsClient.get_page_by_id
      dsimp only
      rw [h1]
      rfl
    unfold WikiJsClient.update_page
    rw [hpre]
    show (WikiJsClient.classifyUpdate (tr (goodUpdateReq content)),
      [WikiJsClient.getByIdRequest 7] ++ [goodUpdateReq content]).1
      = .error (.keyError "responseResult")
    rw [h2]
    rfl
  · intro tr t c p d
    unfold create_page WikiJsClient.create_page
    dsimp only
    cases hc : WikiJsClient.classifyCreate (tr (WikiJsClient.createRequest t c p d)) with
    | error e => exact ⟨_, rfl⟩
    | ok v => exact ⟨v, rfl⟩

/-- Witness for C5 (amended), evaluating all six parts at concrete
transports. -/
theorem malformed_response_handling_by_operation_witness :
    (search_wiki (constTransport ⟨200, "", .obj [("x", .int 1)]⟩) "q").1
      = .error (.keyError "data")
    ∧ (create_page (constTransport ⟨200, "", .obj [("x", .int 1)]⟩) "T" "C" "/t").1
      = .ok (.str ("Unexpected response structure: " ++ pyStr (.obj [("x", .int 1)])))
    ∧ (WikiJsClient.update_page (splitTransport ⟨200, "", .obj [("x", .int 1)]⟩) 7 "new").1
      = .ok (.str "Unexpected response structure from API")
    ∧ (get_page (constTransport ⟨200, "", .obj [("x", .int 1)]⟩) "7" false).1
      = .ok (.str "No page found with ID: 7")
    ∧ (WikiJsClient.update_page (splitTransport ⟨200, "",
        .obj [("data", .obj [("pages", .obj [("update", .obj [])])])]⟩) 7 "new").1
      = .error (.keyError "responseResult")
    ∧ (∃ v, (create_page (constTransport ⟨500, "x", .null⟩) "T" "C" "/t" "d").1 = .ok v) := by
  refine ⟨?_, ?_, ?_, ?_, ?_, ?_⟩
  · exact malformed_response_handling_by_operation.1
      (constTransport ⟨200, "", .obj [("x", .int 1)]⟩) "q" "" [("x", .int 1)] rfl rfl rfl
  · exact malformed_response_handling_by_operation.2.1
      (constTransport ⟨200, "", .obj [("x", .int 1)]⟩) "T" "C" "/t" "" [("x", .int 1)] rfl rfl rfl
  · exact malformed_response_handling_by_operation.2.2.1
      _ "new" "" "" [("x", .int 1)] rfl rfl rfl rfl
  · exact malformed_response_handling_by_operation.2.2.2.1
      (constTransport ⟨200, "", .obj [("x", .int 1)]⟩) "7" "" 7 [("x", .int 1)] rfl rfl rfl rfl
  · exact malformed_response_handling_by_operation.2.2.2.2.1 _ "new" "" "" rfl rfl
  · exact malformed_response_handling_by_operation.2.2.2.2.2
      (constTransport ⟨500, "x", .null⟩) "T" "C" "/t" "d"

/-- Witness for C10 at identifier `"5"`. -/
theorem get_page_falsy_payload_notfound_message_witness :
    (get_page (constTransport ⟨200, "",
      .obj [("data", .obj [("pages", .obj [("single", .obj [])])])]⟩) "5" false).1
      = .ok (.str "No page found with ID: 5")
    ∧ (get_page (constTransport ⟨200, "",
      .obj [("data", .obj [("pages", .obj [("single", .null)])])]⟩) "5" false).1
      = .ok (.str "No page found with ID: 5") :=
  get_page_falsy_payload_notfound_message
    (constTransport ⟨200, "", .obj [("data", .obj [("pages", .obj [("single", .obj [])])])]⟩)
    (constTransport ⟨200, "", .obj [("data", .obj [("pages", .obj [("single", .null)])])]⟩)
    "5" "" "" 5 rfl rfl rfl

end WikiJsMcp
